import Mathlib

/-!
Verification of the upload-and-transcribe pipeline of the
sinhala-voice-transcript repository.

The JavaScript/TypeScript sources are shallowly embedded: strings are
Lean strings manipulated through their character lists, JavaScript
numbers that carry confidences are modelled as exact rationals, and the
external storage / speech providers are oracles passed in as functions.
-/

/-! ## JavaScript string primitives -/

/-- The character class matched by the JavaScript regular expression `\s`
(whitespace, as used by `split(/\s+/)` and `trim`). -/
def isJsWs (c : Char) : Bool :=
  c = ' ' || c = '\t' || c = '\n' || c = '\r' || c = '\x0b' || c = '\x0c' ||
  c = ' ' || c = ' ' || (0x2000 ≤ c.toNat && c.toNat ≤ 0x200A) ||
  c = ' ' || c = ' ' || c = ' ' || c = ' ' || c = '　' || c = '﻿'

/-- Worker for `jsSplitWs`: current piece is accumulated reversed; a run of
whitespace closes the current piece, exactly as `String.prototype.split(/\s+/)`
does (leading and trailing runs produce empty pieces). -/
def splitWsGo : List Char → List Char → Bool → List (List Char)
  | [], cur, _ => [cur.reverse]
  | c :: rest, cur, lastWs =>
    if isJsWs c then
      if lastWs then splitWsGo rest cur true
      else cur.reverse :: splitWsGo rest [] true
    else splitWsGo rest (c :: cur) false

/-- JavaScript `s.split(/\s+/)`. -/
def jsSplitWs (s : String) : List String :=
  (splitWsGo s.data [] false).map List.asString

/-- JavaScript `s.trim()`. -/
def jsTrim (s : String) : String :=
  (((s.data.dropWhile isJsWs).reverse.dropWhile isJsWs).reverse).asString

/-- Does the first list start with the second one? -/
def listStartsWith : List Char → List Char → Bool
  | _, [] => true
  | [], _ :: _ => false
  | a :: as, b :: bs => a = b && listStartsWith as bs

/-- Does the first list contain the second as a contiguous sublist? -/
def containsSub : List Char → List Char → Bool
  | [], pat => pat.isEmpty
  | a :: rest, pat => listStartsWith (a :: rest) pat || containsSub rest pat

/-- JavaScript `s.includes(pat)`. -/
def jsIncludes (s pat : String) : Bool := containsSub s.data pat.data

/-- JavaScript `s.startsWith(pat)`. -/
def jsStartsWith (s pat : String) : Bool := listStartsWith s.data pat.data

/-- ASCII case lowering of one character, the fragment of JavaScript
`toLowerCase` relevant to the ASCII format tokens of the encoding table. -/
def jsCharLower (c : Char) : Char :=
  if 'A' ≤ c ∧ c ≤ 'Z' then Char.ofNat (c.toNat + 32) else c

/-- JavaScript `s.toLowerCase()` on the ASCII range. -/
def jsToLower (s : String) : String := (s.data.map jsCharLower).asString

/-- JavaScript `o || d` for an optional string: `undefined` and the empty
string are falsy. -/
def jsOrString (o : Option String) (d : String) : String :=
  match o with
  | none => d
  | some s => if s = "" then d else s

/-- Worker for `jsSplitOnChar`. -/
def splitOnCharGo (sep : Char) : List Char → List Char → List (List Char)
  | [], cur => [cur.reverse]
  | c :: rest, cur =>
    if c = sep then cur.reverse :: splitOnCharGo sep rest []
    else splitOnCharGo sep rest (c :: cur)

/-- JavaScript `s.split(sep)` for a one-character separator. -/
def jsSplitOnChar (sep : Char) (s : String) : List String :=
  (splitOnCharGo sep s.data []).map List.asString

/-- Insertion into a JavaScript `Set` serialized by `Array.from`: first
occurrence order is kept, duplicates are dropped. -/
def insertUnique (l : List String) (s : String) : List String :=
  if s ∈ l then l else l ++ [s]

/-! ## Speech library (`src/lib/speech.ts`, language-mode variant) -/

/-- Audio encodings accepted by the speech provider. -/
inductive AudioEncoding where
  | LINEAR16
  | FLAC
  | MULAW
  | AMR
  | AMR_WB
  | OGG_OPUS
  | SPEEX_WITH_HEADER_BYTE
  | MP3
deriving DecidableEq

/-- The three language modes of the transcription request. -/
inductive LanguageMode where
  | sinhala
  | english
  | mixed
deriving DecidableEq

/-- `getAudioEncoding`: the fixed format-to-encoding lookup table, applied to
the lowercased format string; unknown formats default to MP3. -/
def getAudioEncoding (format : String) : AudioEncoding :=
  let formatLower := jsToLower format
  if formatLower = "mp3" then AudioEncoding.MP3
  else if formatLower = "wav" ∨ formatLower = "wave" then AudioEncoding.LINEAR16
  else if formatLower = "mp4" then AudioEncoding.MP3
  else if formatLower = "flac" then AudioEncoding.FLAC
  else if formatLower = "ogg" then AudioEncoding.OGG_OPUS
  else if formatLower = "m4a" then AudioEncoding.MP3
  else AudioEncoding.MP3

/-- One recognition alternative of a provider result; `transcript` and
`confidence` may be absent, as in the provider's JSON. -/
structure SpeechAlternative where
  transcript : Option String
  confidence : Option ℚ
deriving DecidableEq

/-- One provider result (segment). -/
structure SpeechResult where
  alternatives : List SpeechAlternative
  languageCode : Option String
deriving DecidableEq

/-- A provider response: an absent result list is modelled as `[]`, which the
code treats identically. -/
structure SpeechResponse where
  results : List SpeechResult
deriving DecidableEq

/-- The normalized transcription result returned to the route. -/
structure TranscriptionResult where
  transcription : String
  confidence : ℚ
  segmentCount : Nat
  totalWords : Nat
  message : Option String
  detectedLanguages : Option (List String)
  primaryLanguage : Option String
  languageConfidence : Option ℚ
deriving DecidableEq

/-- An error thrown by the provider client: a message and an optional
structured status code. -/
structure GCError where
  message : String
  code : Option Int
deriving DecidableEq

/-- The recognition request configuration built by `transcribeAudio`; an
absent `alternativeLanguageCodes` field is modelled as `[]`. -/
structure SpeechConfig where
  encoding : AudioEncoding
  sampleRateHertz : Nat
  model : String
  enableAutomaticPunctuation : Bool
  enableWordTimeOffsets : Bool
  maxAlternatives : Nat
  audioChannelCount : Nat
  enableSeparateRecognitionPerChannel : Bool
  languageCode : String
  alternativeLanguageCodes : List String
deriving DecidableEq

/-- The configuration `transcribeAudio` submits first: stereo channel count,
language settings chosen by the language mode. -/
def buildConfig (audioFormat : String) (languageMode : LanguageMode) : SpeechConfig :=
  { encoding := getAudioEncoding audioFormat
    sampleRateHertz := 16000
    model := "default"
    enableAutomaticPunctuation := true
    enableWordTimeOffsets := false
    maxAlternatives := 1
    audioChannelCount := 2
    enableSeparateRecognitionPerChannel := false
    languageCode :=
      match languageMode with
      | LanguageMode.sinhala => "si-LK"
      | LanguageMode.english => "en-US"
      | LanguageMode.mixed => "si-LK"
    alternativeLanguageCodes :=
      match languageMode with
      | LanguageMode.mixed => ["en-US"]
      | _ => [] }

/-- `err.message?.includes('channel') || err.message?.includes('mono')`. -/
def channelRelated (msg : String) : Bool :=
  jsIncludes msg "channel" || jsIncludes msg "mono"

/-- The mode name interpolated into error messages. -/
def modeString (m : LanguageMode) : String :=
  match m with
  | LanguageMode.sinhala => "sinhala"
  | LanguageMode.english => "english"
  | LanguageMode.mixed => "mixed"

/-- The outer catch block of `transcribeAudio`: maps a provider error to the
message of the error rethrown to the route. -/
def mapCatchError (mode : LanguageMode) (err : GCError) : String :=
  if channelRelated err.message then
    "Audio channel error: Please convert to mono (single-channel) audio."
  else if err.code = some 3 then
    "Invalid audio configuration for " ++ modeString mode ++ " mode: " ++ err.message
  else if err.code = some 7 then
    "Permission denied: Check service account permissions"
  else if err.code = some 16 then
    "Authentication failed: Check Google Cloud credentials"
  else if err.code = some 4 then
    "Request timeout: Audio file might be too long"
  else
    "Speech-to-Text error (" ++ modeString mode ++ " mode): " ++ err.message

/-- Characters counted by `/[඀-෿]/g` (the Sinhala Unicode block). -/
def countSinhalaChars (s : String) : Nat :=
  (s.data.filter fun c => 0x0D80 ≤ c.toNat && c.toNat ≤ 0x0DFF).length

/-- Characters counted by `/[A-Za-z]/g`. -/
def countLatinChars (s : String) : Nat :=
  (s.data.filter fun c => ('A' ≤ c && c ≤ 'Z') || ('a' ≤ c && c ≤ 'z')).length

/-- Mixed-mode primary-language analysis of the assembled transcript:
majority script wins, an exact tie is labelled "mixed". -/
def classifyMixedLanguage (s : String) : String :=
  if countSinhalaChars s > countLatinChars s then "si-LK"
  else if countLatinChars s > countSinhalaChars s then "en-US"
  else "mixed"

/-- What the forEach over `response.results` pushes for one result: the
trimmed transcript and the confidence (missing confidence counted as 0),
pushed only when the best alternative exists and its transcript is truthy. -/
def segmentEntry (r : SpeechResult) : Option (String × ℚ) :=
  match r.alternatives with
  | [] => none
  | alt :: _ =>
    match alt.transcript with
    | none => none
    | some t => if t = "" then none else some (jsTrim t, alt.confidence.getD 0)

/-- The `allTranscripts`/`allConfidences` accumulation, as a list of pairs. -/
def collectedSegments (results : List SpeechResult) : List (String × ℚ) :=
  results.filterMap segmentEntry

/-- The language code recorded for a result:
`result.languageCode || (mode-dependent default)`. -/
def resultLanguageDefault (mode : LanguageMode) : String :=
  match mode with
  | LanguageMode.sinhala => "si-LK"
  | LanguageMode.english => "en-US"
  | LanguageMode.mixed => "si-LK"

/-- The `detectedLanguages` set, serialized in insertion order: one entry per
result with a non-empty alternatives list. -/
def collectedLanguages (results : List SpeechResult) (mode : LanguageMode) : List String :=
  (results.filterMap fun r =>
    match r.alternatives with
    | [] => none
    | _ :: _ => some (jsOrString r.languageCode (resultLanguageDefault mode))).foldl
    insertUnique []

/-- The `detectedLanguages` value of the zero-results branch. -/
def defaultDetectedLanguages (mode : LanguageMode) : List String :=
  match mode with
  | LanguageMode.mixed => ["si-LK", "en-US"]
  | LanguageMode.sinhala => ["si-LK"]
  | LanguageMode.english => ["en-US"]

/-- `languageMode === 'sinhala' ? 'si-LK' : languageMode === 'english' ?
'en-US' : 'mixed'`. -/
def defaultPrimaryLanguage (mode : LanguageMode) : String :=
  match mode with
  | LanguageMode.sinhala => "si-LK"
  | LanguageMode.english => "en-US"
  | LanguageMode.mixed => "mixed"

/-- `processTranscriptionResponse`: normalization of a provider response. -/
def processTranscriptionResponse (response : SpeechResponse)
    (languageMode : LanguageMode) : TranscriptionResult :=
  if response.results = [] then
    { transcription := ""
      confidence := 0
      segmentCount := 0
      totalWords := 0
      message := some "No speech detected"
      detectedLanguages := some (defaultDetectedLanguages languageMode)
      primaryLanguage := some (defaultPrimaryLanguage languageMode)
      languageConfidence := none }
  else
    let segs := collectedSegments response.results
    let allTranscripts := segs.map Prod.fst
    let allConfidences := segs.map Prod.snd
    let fullTranscription := String.intercalate " " allTranscripts
    let averageConfidence : ℚ :=
      if 0 < allConfidences.length then
        allConfidences.sum / (allConfidences.length : ℚ)
      else 0
    let wordCount := if jsTrim fullTranscription = "" then 0 else (jsSplitWs fullTranscription).length
    let primaryLanguage :=
      match languageMode with
      | LanguageMode.sinhala => "si-LK"
      | LanguageMode.english => "en-US"
      | LanguageMode.mixed => classifyMixedLanguage fullTranscription
    { transcription := fullTranscription
      confidence := averageConfidence
      segmentCount := allTranscripts.length
      totalWords := wordCount
      message := none
      detectedLanguages := some (collectedLanguages response.results languageMode)
      primaryLanguage := some primaryLanguage
      languageConfidence := some averageConfidence }

/-- `transcribeAudio`: validates the URI, submits the stereo configuration,
falls back to a mono configuration exactly once on a channel/mono-related
failure, and maps any surfaced failure through the catch block. The second
component records, in order, the configurations submitted to the provider. -/
def transcribeAudio (gcsUri audioFormat : String) (languageMode : LanguageMode)
    (recognize : SpeechConfig → Except GCError SpeechResponse) :
    Except String TranscriptionResult × List SpeechConfig :=
  if gcsUri = "" ∨ jsStartsWith gcsUri "gs://" = false then
    (Except.error (mapCatchError languageMode ⟨"Invalid GCS URI: " ++ gcsUri, none⟩), [])
  else
    let config := buildConfig audioFormat languageMode
    match recognize config with
    | Except.ok resp =>
      (Except.ok (processTranscriptionResponse resp languageMode), [config])
    | Except.error stereoErr =>
      if channelRelated stereoErr.message then
        let monoConfig := { config with audioChannelCount := 1 }
        match recognize monoConfig with
        | Except.ok resp =>
          (Except.ok (processTranscriptionResponse resp languageMode), [config, monoConfig])
        | Except.error e2 =>
          (Except.error (mapCatchError languageMode e2), [config, monoConfig])
      else
        (Except.error (mapCatchError languageMode stereoErr), [config])

/-! ## Upload route (`src/app/api/upload/route.ts`) -/

/-- The characters kept verbatim by the sanitizer, the class
`[a-zA-Z0-9.-]` of the replace call. -/
def allowedKeyChar (c : Char) : Bool :=
  ('a' ≤ c && c ≤ 'z') || ('A' ≤ c && c ≤ 'Z') || ('0' ≤ c && c ≤ '9') ||
  c = '.' || c = '-'

/-- `file.name.replace(/[^a-zA-Z0-9.-]/g, '_').substring(0, 50)`. -/
def cleanFileName (name : String) : String :=
  ((name.data.map fun c => if allowedKeyChar c then c else '_').take 50).asString

/-- `file.name.split('.').pop() || 'mp3'`. -/
def jsExtension (name : String) : String :=
  let parts := jsSplitOnChar '.' name
  let popped := parts.getLastD ""
  if popped = "" then "mp3" else popped

/-- The generated storage key
`audio/<timestamp>-<randomId>-<cleanName>.<extension>`. -/
def generatedFileName (timestamp randomId name : String) : String :=
  "audio/" ++ timestamp ++ "-" ++ randomId ++ "-" ++ cleanFileName name ++ "." ++
    jsExtension name

/-- The media types accepted by the upload route. -/
def uploadAllowedTypes : List String :=
  ["audio/mpeg", "audio/mp3", "audio/mp4", "audio/wav", "audio/wave",
   "video/mp4", "audio/webm", "audio/m4a", "audio/ogg", "audio/flac"]

/-- The incoming multipart file, as the route sees it. -/
structure UploadFile where
  name : String
  type : String
  size : Nat
deriving DecidableEq

/-- Trace of the upload retry loop: the loop's outcome (`none` only when the
loop can exit without a write, impossible for a positive attempt budget), the
number of storage calls made, and the backoff sleeps in milliseconds. -/
structure RetryTrace (E A : Type) where
  result : Option (Except E A)
  calls : Nat
  sleeps : List Nat

/-- The `while (uploadAttempts < maxAttempts)` retry loop. `fuel` bounds the
recursion and is instantiated with the attempt budget; `tryUpload n` is the
outcome of the storage write when the counter reads `n`. A failed attempt
increments the counter, rethrows when the budget is exhausted, and otherwise
sleeps `2 ^ counter * 1000` milliseconds before the next attempt. -/
def uploadRetryGo (tryUpload : Nat → Except String String) (maxAttempts : Nat) :
    Nat → Nat → RetryTrace String String
  | 0, _ => ⟨none, 0, []⟩
  | fuel + 1, uploadAttempts =>
    if uploadAttempts < maxAttempts then
      match tryUpload uploadAttempts with
      | Except.ok a => ⟨some (Except.ok a), 1, []⟩
      | Except.error e =>
        if uploadAttempts + 1 ≥ maxAttempts then ⟨some (Except.error e), 1, []⟩
        else
          let rest := uploadRetryGo tryUpload maxAttempts fuel (uploadAttempts + 1)
          ⟨rest.result, rest.calls + 1, 2 ^ (uploadAttempts + 1) * 1000 :: rest.sleeps⟩
    else ⟨none, 0, []⟩

/-- The retry loop as the route runs it: `maxAttempts = 3`, counter from 0. -/
def uploadRetry (tryUpload : Nat → Except String String) : RetryTrace String String :=
  uploadRetryGo tryUpload 3 3 0

/-- The upload route's catch block: maps the surfaced storage error message to
the 500 response body. -/
def mapUploadFailure (msg : String) : String :=
  if jsIncludes msg "stream was destroyed" then
    "Upload connection was interrupted. Please try again."
  else if jsIncludes msg "authentication" || jsIncludes msg "credentials" then
    "Authentication error. Please check server configuration."
  else
    "Upload failed: " ++ msg

/-- The upload route's observable outcome. -/
structure UploadRouteResult where
  status : Nat
  gcsUri : Option String
  errorMsg : Option String
  storageCalls : Nat
  sleeps : List Nat
deriving DecidableEq

/-- The POST handler of the upload route: type check, size check, key
generation, then the retried storage write. `tryUpload key n` is the outcome
of the storage write of `key` when the attempt counter reads `n`. -/
def uploadPOST (file : Option UploadFile) (timestamp randomId : String)
    (tryUpload : String → Nat → Except String String) : UploadRouteResult :=
  match file with
  | none => ⟨400, none, some "No file provided", 0, []⟩
  | some f =>
    if f.type ∉ uploadAllowedTypes then
      ⟨400, none,
        some ("Invalid file type: " ++ f.type ++
          ". Supported: MP3, MP4, WAV, M4A, FLAC, OGG, WebM"), 0, []⟩
    else if f.size > 100 * 1024 * 1024 then
      ⟨400, none, some "File size too large. Maximum 100MB allowed.", 0, []⟩
    else
      let fileName := generatedFileName timestamp randomId f.name
      let trace := uploadRetry (tryUpload fileName)
      match trace.result with
      | some (Except.ok uri) => ⟨200, some uri, none, trace.calls, trace.sleeps⟩
      | some (Except.error e) =>
        ⟨500, none, some (mapUploadFailure e), trace.calls, trace.sleeps⟩
      | none => ⟨200, none, none, trace.calls, trace.sleeps⟩

/-! ## Whisper route (`src/app/api/whisper/route.ts`), validation stage -/

/-- The media types accepted by the whisper route. -/
def whisperAllowedTypes : List String :=
  ["audio/mpeg", "audio/mp3", "audio/mp4", "audio/wav", "audio/wave",
   "video/mp4", "audio/webm", "audio/m4a", "audio/ogg", "audio/flac"]

/-- Outcome of the whisper route's validation stage: either an early 400/500
response, or the request proceeds to the provider call. -/
inductive WhisperCheck where
  | rejected (status : Nat) (msg : String)
  | proceeds
deriving DecidableEq

/-- The validation stage of the whisper POST handler: size ceiling first,
then the media-type allowlist; only a passing request reaches the provider. -/
def whisperValidate (fileType : String) (fileSize : Nat) : WhisperCheck :=
  if fileSize > 25 * 1024 * 1024 then
    WhisperCheck.rejected 400
      "File size too large. OpenAI Whisper supports files up to 25MB."
  else if fileType ∉ whisperAllowedTypes then
    WhisperCheck.rejected 400
      ("Invalid file type: " ++ fileType ++
        ". Whisper supports MP3, MP4, WAV, M4A, FLAC, OGG, WebM")
  else WhisperCheck.proceeds

/-! ## Transcribe route (`src/app/api/transcribe/route.ts`) -/

/-- The parsed JSON body of a transcribe request; `languageMode` may be
omitted. -/
structure TranscribeBody where
  gcsUri : String
  audioFormat : String
  languageMode : Option LanguageMode
deriving DecidableEq

/-- The transcribe route's JSON response: HTTP status plus the fields of the
success or error body. -/
structure TranscribeResponse where
  status : Nat
  transcription : Option String
  confidence : Option ℚ
  language : Option String
  segmentCount : Option Nat
  totalWords : Option Nat
  detectedLanguages : Option (List String)
  primaryLanguage : Option String
  errorMsg : Option String
deriving DecidableEq

/-- `requiredEnvVars.filter(v => !process.env[v])`. -/
def missingEnvVars (gcpProjectId gcsClientEmail gcsPrivateKey : Bool) : List String :=
  (if gcpProjectId then [] else ["GCP_PROJECT_ID"]) ++
  (if gcsClientEmail then [] else ["GCS_CLIENT_EMAIL"]) ++
  (if gcsPrivateKey then [] else ["GCS_PRIVATE_KEY"])

/-- The transcribe route's catch block: maps the message of a transcription
failure to an HTTP status and response message. -/
def mapTranscribeErrorStatus (msg : String) : Nat × String :=
  if jsIncludes msg "authentication" then
    (401, "Authentication failed. Check Google Cloud credentials.")
  else if jsIncludes msg "permission" then
    (403, "Permission denied. Check service account permissions.")
  else if jsIncludes msg "not found" then
    (404, "Audio file not found in storage bucket.")
  else if jsIncludes msg "quota" then
    (429, "API quota exceeded. Please try again later.")
  else (500, "Transcription failed: " ++ msg)

/-- The POST handler of the transcribe route. The three booleans say whether
each required environment variable is set; `recognize` is the provider
oracle handed to `transcribeAudio`. -/
def transcribeRoutePOST (body : TranscribeBody)
    (gcpProjectId gcsClientEmail gcsPrivateKey : Bool)
    (recognize : SpeechConfig → Except GCError SpeechResponse) : TranscribeResponse :=
  if body.gcsUri = "" then
    ⟨400, none, none, none, none, none, none, none, some "GCS URI required"⟩
  else if body.audioFormat = "" then
    ⟨400, none, none, none, none, none, none, none, some "Audio format required"⟩
  else if missingEnvVars gcpProjectId gcsClientEmail gcsPrivateKey ≠ [] then
    ⟨500, none, none, none, none, none, none, none,
      some ("Server configuration error: Missing " ++
        String.intercalate ", "
          (missingEnvVars gcpProjectId gcsClientEmail gcsPrivateKey))⟩
  else
    let mode := body.languageMode.getD LanguageMode.mixed
    match (transcribeAudio body.gcsUri body.audioFormat mode recognize).1 with
    | Except.ok r =>
      ⟨200, some r.transcription, some r.confidence,
        some (jsOrString r.primaryLanguage (defaultPrimaryLanguage mode)),
        some r.segmentCount, some r.totalWords, r.detectedLanguages,
        r.primaryLanguage, none⟩
    | Except.error msg =>
      let sm := mapTranscribeErrorStatus msg
      ⟨sm.1, none, none, none, none, none, none, none, some sm.2⟩

/-! ## Helper lemmas -/

lemma uploadRetry_characterization (t : Nat → Except String String) :
    (∀ a, t 0 = Except.ok a → uploadRetry t = ⟨some (Except.ok a), 1, []⟩) ∧
    (∀ e0 a, t 0 = Except.error e0 → t 1 = Except.ok a →
      uploadRetry t = ⟨some (Except.ok a), 2, [2000]⟩) ∧
    (∀ e0 e1 a, t 0 = Except.error e0 → t 1 = Except.error e1 → t 2 = Except.ok a →
      uploadRetry t = ⟨some (Except.ok a), 3, [2000, 4000]⟩) ∧
    (∀ e0 e1 e2, t 0 = Except.error e0 → t 1 = Except.error e1 → t 2 = Except.error e2 →
      uploadRetry t = ⟨some (Except.error e2), 3, [2000, 4000]⟩) := by
  refine ⟨?_, ?_, ?_, ?_⟩
  · intro a h0
    simp [uploadRetry, uploadRetryGo, h0]
  · intro e0 a h0 h1
    simp [uploadRetry, uploadRetryGo, h0, h1]
  · intro e0 e1 a h0 h1 h2
    simp [uploadRetry, uploadRetryGo, h0, h1, h2]
  · intro e0 e1 e2 h0 h1 h2
    simp [uploadRetry, uploadRetryGo, h0, h1, h2]

lemma uploadRetry_calls_le (t : Nat → Except String String) :
    1 ≤ (uploadRetry t).calls ∧ (uploadRetry t).calls ≤ 3 := by
  obtain ⟨c1, c2, c3, c4⟩ := uploadRetry_characterization t
  rcases h0 : t 0 with e0 | a0
  · rcases h1 : t 1 with e1 | a1
    · rcases h2 : t 2 with e2 | a2
      · rw [c4 e0 e1 e2 h0 h1 h2]; constructor <;> norm_num
      · rw [c3 e0 e1 a2 h0 h1 h2]; constructor <;> norm_num
    · rw [c2 e0 a1 h0 h1]; constructor <;> norm_num
  · rw [c1 a0 h0]; constructor <;> norm_num

/-! ## Claim C7 -/

/-- Claim C7: `getAudioEncoding` is a pure, total, deterministic function of
the lowercased format string implementing the fixed table wav/wave→LINEAR16,
mp3/mp4/m4a→MP3, flac→FLAC, ogg→OGG_OPUS, case-insensitively, and every
format outside the table resolves to the MP3 default without failing. -/
theorem getAudioEncoding_table :
    (∀ s t, jsToLower s = jsToLower t → getAudioEncoding s = getAudioEncoding t) ∧
    getAudioEncoding "wav" = AudioEncoding.LINEAR16 ∧
    getAudioEncoding "WAVE" = AudioEncoding.LINEAR16 ∧
    getAudioEncoding "mp3" = AudioEncoding.MP3 ∧
    getAudioEncoding "Mp4" = AudioEncoding.MP3 ∧
    getAudioEncoding "M4A" = AudioEncoding.MP3 ∧
    getAudioEncoding "FLAC" = AudioEncoding.FLAC ∧
    getAudioEncoding "ogg" = AudioEncoding.OGG_OPUS ∧
    (∀ s, jsToLower s ∉ (["mp3", "wav", "wave", "mp4", "flac", "ogg", "m4a"] : List String) →
      getAudioEncoding s = AudioEncoding.MP3) := by
  refine ⟨?_, by decide, by decide, by decide, by decide, by decide, by decide, by decide, ?_⟩
  · intro s t h
    simp only [getAudioEncoding, h]
  · intro s h
    simp only [List.mem_cons, List.not_mem_nil, or_false, not_or] at h
    obtain ⟨h1, h2, h3, h4, h5, h6, h7⟩ := h
    simp [getAudioEncoding, h1, h2, h3, h4, h5, h6, h7]

/-- Concrete instance of the encoding-table theorem. -/
theorem getAudioEncoding_table_witness :
    jsToLower "WAV" = jsToLower "wav" ∧
    getAudioEncoding "WAV" = getAudioEncoding "wav" ∧
    jsToLower "xyz" ∉ (["mp3", "wav", "wave", "mp4", "flac", "ogg", "m4a"] : List String) ∧
    getAudioEncoding "xyz" = AudioEncoding.MP3 :=
  ⟨by decide, getAudioEncoding_table.1 "WAV" "wav" (by decide), by decide,
    getAudioEncoding_table.2.2.2.2.2.2.2.2 "xyz" (by decide)⟩

/-! ## Claim C6 -/

/-- Claim C6 (counterexample): the sanitizer replaces each character outside
[A-Za-z0-9.-] with an underscore rather than stripping it, so the generated
storage key for the name "my song.mp3" contains '_', a character outside that
set which is neither part of the "audio/" prefix nor a '-' separator. -/
theorem generatedFileName_underscore_cex :
    generatedFileName "1712345678901" "k3j4h5g6f7d8e" "my song.mp3"
      = "audio/1712345678901-k3j4h5g6f7d8e-my_song.mp3.mp3" ∧
    '_' ∈ (generatedFileName "1712345678901" "k3j4h5g6f7d8e" "my song.mp3").data ∧
    allowedKeyChar '_' = false := by decide

/-- Claim C6 (amended): the generated key has the exact form
`audio/<timestamp>-<random-id>-<sanitized-name>.<extension>`; the sanitized
base name is at most 50 characters and each of its characters is either in
[A-Za-z0-9.-] or the replacement character '_'; the extension is the part of
the original name after its last dot (or "mp3"), copied verbatim. -/
theorem generatedFileName_sanitization (timestamp randomId name : String) :
    (cleanFileName name).length ≤ 50 ∧
    (∀ c ∈ (cleanFileName name).data, allowedKeyChar c = true ∨ c = '_') ∧
    generatedFileName timestamp randomId name
      = "audio/" ++ timestamp ++ "-" ++ randomId ++ "-" ++ cleanFileName name ++
        "." ++ jsExtension name := by
  refine ⟨?_, ?_, rfl⟩
  · show ((name.data.map fun c => if allowedKeyChar c then c else '_').take 50).length ≤ 50
    exact List.length_take_le _ _
  · intro c hc
    have hc2 : c ∈ (name.data.map fun c => if allowedKeyChar c then c else '_') :=
      List.take_subset _ _ hc
    obtain ⟨a, _, rfl⟩ := List.mem_map.mp hc2
    by_cases h : allowedKeyChar a = true
    · left; simp [h]
    · right; simp [h]

/-- Concrete instance of the sanitization theorem. -/
theorem generatedFileName_sanitization_witness :
    (cleanFileName "my song.mp3").length ≤ 50 ∧
    (allowedKeyChar 'm' = true ∨ 'm' = '_') :=
  ⟨(generatedFileName_sanitization "1" "r" "my song.mp3").1,
    (generatedFileName_sanitization "1" "r" "my song.mp3").2.1 'm' (by decide)⟩

/-! ## Claim C2 -/

/-- Claim C2 (counterexample): when every storage attempt fails, the backoff
sleeps between consecutive attempts are 2000 ms then 4000 ms — not the
1s/2s/4s schedule the claim states. -/
theorem uploadRetry_backoff_cex :
    (uploadRetry fun _ => (Except.error "write failed" : Except String String)).sleeps
      = [2000, 4000] ∧
    ¬ (uploadRetry fun _ => (Except.error "write failed" : Except String String)).sleeps
        = [1000, 2000] ∧
    ¬ (uploadRetry fun _ => (Except.error "write failed" : Except String String)).sleeps
        = [1000, 2000, 4000] := by decide

/-- Claim C2 (amended): for every upload request that passes validation, the
storage write is attempted at most 3 times in strict sequence, with
exponential-backoff delays of 2s then 4s between consecutive attempts
(2^k seconds after the k-th failure); a write that fails twice then succeeds
on the third attempt returns success with exactly 3 attempts, and a write
that fails on all 3 attempts surfaces only the final attempt's error. -/
theorem uploadRetry_budget (f : UploadFile) (ts rid : String)
    (u : String → Nat → Except String String)
    (htype : f.type ∈ uploadAllowedTypes) (hsize : ¬ f.size > 100 * 1024 * 1024) :
    ((uploadPOST (some f) ts rid u).storageCalls
        = (uploadRetry (u (generatedFileName ts rid f.name))).calls ∧
      (uploadPOST (some f) ts rid u).sleeps
        = (uploadRetry (u (generatedFileName ts rid f.name))).sleeps) ∧
    (∀ t : Nat → Except String String,
      (uploadRetry t).calls ≤ 3 ∧
      (∀ e0 e1 a, t 0 = Except.error e0 → t 1 = Except.error e1 → t 2 = Except.ok a →
        uploadRetry t = ⟨some (Except.ok a), 3, [2000, 4000]⟩) ∧
      (∀ e0 e1 e2, t 0 = Except.error e0 → t 1 = Except.error e1 →
        t 2 = Except.error e2 →
        uploadRetry t = ⟨some (Except.error e2), 3, [2000, 4000]⟩)) := by
  constructor
  · rcases hres : (uploadRetry (u (generatedFileName ts rid f.name))).result
      with _ | v
    · constructor <;> simp [uploadPOST, htype, hsize, hres]
    · rcases v with e | a
      · constructor <;> simp [uploadPOST, htype, hsize, hres]
      · constructor <;> simp [uploadPOST, htype, hsize, hres]
  · intro t
    exact ⟨(uploadRetry_calls_le t).2,
      (uploadRetry_characterization t).2.2.1,
      (uploadRetry_characterization t).2.2.2⟩

/-- Concrete instance of the retry-budget theorem: two transient failures
followed by a success. -/
def failTwiceOracle : Nat → Except String String :=
  fun n => if n < 2 then Except.error "transient" else Except.ok "gs://bucket/audio/key"

/-- Concrete instance of the retry-budget theorem. -/
theorem uploadRetry_budget_witness :
    ("audio/mpeg" : String) ∈ uploadAllowedTypes ∧
    ¬ (5 : Nat) > 100 * 1024 * 1024 ∧
    uploadRetry failTwiceOracle
      = ⟨some (Except.ok "gs://bucket/audio/key"), 3, [2000, 4000]⟩ :=
  ⟨by decide, by norm_num,
    ((uploadRetry_budget ⟨"a.mp3", "audio/mpeg", 5⟩ "1" "r" (fun _ => failTwiceOracle)
          (by decide) (by norm_num)).2 failTwiceOracle).2.1
      "transient" "transient" "gs://bucket/audio/key" rfl rfl rfl⟩

/-! ## Claim C8 -/

/-- Claim C8: a file of exactly the size ceiling (100 MiB upload route,
25 MiB whisper route) is not rejected for size; one byte over is rejected
with a 400 and no storage or provider call; a media type outside the allowed
set is rejected with a 400 even at size zero. -/
theorem upload_size_type_boundaries (f : UploadFile) (ts rid : String)
    (u : String → Nat → Except String String) :
    (f.type ∈ uploadAllowedTypes → f.size = 100 * 1024 * 1024 →
      (uploadPOST (some f) ts rid u).status ≠ 400 ∧
      1 ≤ (uploadPOST (some f) ts rid u).storageCalls) ∧
    (f.size = 100 * 1024 * 1024 + 1 →
      (uploadPOST (some f) ts rid u).status = 400 ∧
      (uploadPOST (some f) ts rid u).storageCalls = 0) ∧
    (f.type ∉ uploadAllowedTypes → f.size = 0 →
      (uploadPOST (some f) ts rid u).status = 400 ∧
      (uploadPOST (some f) ts rid u).storageCalls = 0) ∧
    (f.type ∈ whisperAllowedTypes →
      whisperValidate f.type (25 * 1024 * 1024) = WhisperCheck.proceeds) ∧
    (whisperValidate f.type (25 * 1024 * 1024 + 1)
      = WhisperCheck.rejected 400
          "File size too large. OpenAI Whisper supports files up to 25MB.") ∧
    (f.type ∉ whisperAllowedTypes →
      whisperValidate f.type 0
        = WhisperCheck.rejected 400
            ("Invalid file type: " ++ f.type ++
              ". Whisper supports MP3, MP4, WAV, M4A, FLAC, OGG, WebM")) := by
  refine ⟨?_, ?_, ?_, ?_, ?_, ?_⟩
  · intro htype hsize
    have hgt : ¬ f.size > 100 * 1024 * 1024 := by omega
    constructor
    · rcases hres : (uploadRetry (u (generatedFileName ts rid f.name))).result
        with _ | v
      · simp [uploadPOST, htype, hgt, hres]
      · rcases v with e | a
        · simp [uploadPOST, htype, hgt, hres]
        · simp [uploadPOST, htype, hgt, hres]
    · have hcalls := (uploadRetry_calls_le (u (generatedFileName ts rid f.name))).1
      rcases hres : (uploadRetry (u (generatedFileName ts rid f.name))).result
        with _ | v
      · simpa [uploadPOST, htype, hgt, hres] using hcalls
      · rcases v with e | a
        · simpa [uploadPOST, htype, hgt, hres] using hcalls
        · simpa [uploadPOST, htype, hgt, hres] using hcalls
  · intro hsize
    by_cases htype : f.type ∈ uploadAllowedTypes
    · have hgt : f.size > 100 * 1024 * 1024 := by omega
      constructor <;> simp [uploadPOST, htype, hgt]
    · constructor <;> simp [uploadPOST, htype]
  · intro htype _
    constructor <;> simp [uploadPOST, htype]
  · intro htype
    simp [whisperValidate, htype]
  · simp [whisperValidate]
  · intro htype
    simp [whisperValidate, htype]

/-- Concrete instance of the boundary theorem. -/
theorem upload_size_type_boundaries_witness :
    ("text/plain" : String) ∉ uploadAllowedTypes ∧
    (uploadPOST (some ⟨"a.txt", "text/plain", 0⟩) "1" "r"
        (fun _ _ => Except.ok "gs://bucket/audio/key")).status = 400 :=
  ⟨by decide,
    ((upload_size_type_boundaries ⟨"a.txt", "text/plain", 0⟩ "1" "r"
          (fun _ _ => Except.ok "gs://bucket/audio/key")).2.2.1 (by decide) rfl).1⟩

/-! ## Normalization lemmas and example responses -/

/-- The best-alternative transcript of a segment, read off the result shape
(first alternative, absent transcript read as empty). -/
def headAlternativeTranscript (r : SpeechResult) : String :=
  ((r.alternatives.headD ⟨none, none⟩).transcript).getD ""

/-- The non-empty-results branch of `processTranscriptionResponse`, written
out field by field. -/
lemma processResponse_ne (resp : SpeechResponse) (mode : LanguageMode)
    (hres : resp.results ≠ []) :
    processTranscriptionResponse resp mode =
      { transcription :=
          String.intercalate " " ((collectedSegments resp.results).map Prod.fst)
        confidence :=
          if 0 < ((collectedSegments resp.results).map Prod.snd).length then
            ((collectedSegments resp.results).map Prod.snd).sum /
              ((((collectedSegments resp.results).map Prod.snd).length : ℚ))
          else 0
        segmentCount := ((collectedSegments resp.results).map Prod.fst).length
        totalWords :=
          if jsTrim (String.intercalate " "
              ((collectedSegments resp.results).map Prod.fst)) = "" then 0
          else (jsSplitWs (String.intercalate " "
              ((collectedSegments resp.results).map Prod.fst))).length
        message := none
        detectedLanguages := some (collectedLanguages resp.results mode)
        primaryLanguage := some
          (match mode with
            | LanguageMode.sinhala => "si-LK"
            | LanguageMode.english => "en-US"
            | LanguageMode.mixed =>
              classifyMixedLanguage (String.intercalate " "
                ((collectedSegments resp.results).map Prod.fst)))
        languageConfidence := some
          (if 0 < ((collectedSegments resp.results).map Prod.snd).length then
            ((collectedSegments resp.results).map Prod.snd).sum /
              ((((collectedSegments resp.results).map Prod.snd).length : ℚ))
          else 0) } := by
  unfold processTranscriptionResponse
  rw [if_neg hres]

lemma collectedSegments_map_fst (results : List SpeechResult)
    (hall : ∀ r ∈ results, ∃ alt rest t,
      r.alternatives = alt :: rest ∧ alt.transcript = some t ∧ t ≠ "") :
    (collectedSegments results).map Prod.fst
      = results.map fun r => jsTrim (headAlternativeTranscript r) := by
  induction results with
  | nil => rfl
  | cons r rs ih =>
    obtain ⟨alt, rest, t, ha, ht, hne⟩ := hall r (List.mem_cons_self r rs)
    have hrs := fun x hx => hall x (List.mem_cons_of_mem r hx)
    have hentry : segmentEntry r = some (jsTrim t, alt.confidence.getD 0) := by
      simp [segmentEntry, ha, ht, hne]
    have hhead : headAlternativeTranscript r = t := by
      simp [headAlternativeTranscript, ha, ht]
    simp [collectedSegments, List.filterMap_cons, hentry, hhead]
    simpa [collectedSegments] using ih hrs

lemma qlist_sum_nonneg : ∀ (l : List ℚ), (∀ q ∈ l, 0 ≤ q) → 0 ≤ l.sum
  | [], _ => le_refl 0
  | q :: l, h => by
    simp only [List.sum_cons]
    have h1 := h q (List.mem_cons_self q l)
    have h2 := qlist_sum_nonneg l fun x hx => h x (List.mem_cons_of_mem q hx)
    linarith

lemma qlist_sum_le_length : ∀ (l : List ℚ), (∀ q ∈ l, q ≤ 1) → l.sum ≤ (l.length : ℚ)
  | [], _ => by simp
  | q :: l, h => by
    simp only [List.sum_cons, List.length_cons]
    have h1 := h q (List.mem_cons_self q l)
    have h2 := qlist_sum_le_length l fun x hx => h x (List.mem_cons_of_mem q hx)
    push_cast
    linarith

/-- Two segments with the transcripts of the spec's join example. -/
def respHelloFoo : SpeechResponse :=
  ⟨[⟨[⟨some "hello world", some (9 / 10)⟩], none⟩,
    ⟨[⟨some "foo", some (7 / 10)⟩], none⟩]⟩

/-- Three non-empty segments with confidences 0.9, 0.7 and missing. -/
def respConfExample : SpeechResponse :=
  ⟨[⟨[⟨some "a", some (9 / 10)⟩], none⟩,
    ⟨[⟨some "b", some (7 / 10)⟩], none⟩,
    ⟨[⟨some "c", none⟩], none⟩]⟩

/-- A non-empty result list whose only segment carries an empty transcript:
it is skipped, so the normalized result has zero segments. -/
def zeroSegmentsResp : SpeechResponse := ⟨[⟨[⟨some "", some (1 / 2)⟩], none⟩]⟩

/-! ## Claim C3 -/

/-- Claim C3 (counterexample): a provider response with one result whose only
alternative carries an empty transcript normalizes to zero segments but to
no message at all, contradicting the claim that every zero-segment result
carries a non-empty informational message. -/
theorem processResponse_zero_segments_cex :
    (processTranscriptionResponse zeroSegmentsResp LanguageMode.mixed).segmentCount = 0 ∧
    (processTranscriptionResponse zeroSegmentsResp LanguageMode.mixed).message = none := by
  decide

/-- Claim C3 (amended): a provider response with zero results normalizes to
a success value with empty transcription, zero confidence, zero segments,
zero words, and the non-empty message "No speech detected"; every normalized
result with zero segments has the same empty transcription, zero confidence
and zero words, but the message is present only in the zero-results case. -/
theorem processResponse_zero_results (resp : SpeechResponse) (mode : LanguageMode) :
    ((processTranscriptionResponse ⟨[]⟩ mode).transcription = "" ∧
      (processTranscriptionResponse ⟨[]⟩ mode).confidence = 0 ∧
      (processTranscriptionResponse ⟨[]⟩ mode).segmentCount = 0 ∧
      (processTranscriptionResponse ⟨[]⟩ mode).totalWords = 0 ∧
      (processTranscriptionResponse ⟨[]⟩ mode).message = some "No speech detected" ∧
      ("No speech detected" : String) ≠ "") ∧
    ((processTranscriptionResponse resp mode).segmentCount = 0 →
      (processTranscriptionResponse resp mode).transcription = "" ∧
      (processTranscriptionResponse resp mode).confidence = 0 ∧
      (processTranscriptionResponse resp mode).totalWords = 0) := by
  constructor
  · exact ⟨rfl, rfl, rfl, rfl, rfl, by decide⟩
  · intro h
    by_cases hres : resp.results = []
    · refine ⟨?_, ?_, ?_⟩ <;> simp [processTranscriptionResponse, hres]
    · rw [processResponse_ne resp mode hres] at h ⊢
      simp only [List.length_map, List.length_eq_zero] at h
      rw [h]
      exact ⟨rfl, rfl, rfl⟩

/-- Concrete instance of the zero-results theorem. -/
theorem processResponse_zero_results_witness :
    (processTranscriptionResponse zeroSegmentsResp LanguageMode.english).segmentCount = 0 ∧
    (processTranscriptionResponse zeroSegmentsResp LanguageMode.english).transcription = "" :=
  ⟨by decide,
    ((processResponse_zero_results zeroSegmentsResp LanguageMode.english).2 (by decide)).1⟩

/-! ## Claim C4 -/

/-- Claim C4: the final transcript is the segments' best-alternative
transcripts, each trimmed, joined by single spaces in provider order, and the
word count is obtained by whitespace-splitting the final joined transcript
(never summed per segment); segments ["hello world", "foo"] give
"hello world foo" with 3 words, and an empty transcript gives 0 words. -/
theorem processResponse_join_wordcount (resp : SpeechResponse) (mode : LanguageMode)
    (hres : resp.results ≠ [])
    (hall : ∀ r ∈ resp.results, ∃ alt rest t,
      r.alternatives = alt :: rest ∧ alt.transcript = some t ∧ t ≠ "") :
    ((processTranscriptionResponse resp mode).transcription
        = String.intercalate " "
            (resp.results.map fun r => jsTrim (headAlternativeTranscript r))) ∧
    ((processTranscriptionResponse resp mode).totalWords
        = if jsTrim (processTranscriptionResponse resp mode).transcription = "" then 0
          else (jsSplitWs (processTranscriptionResponse resp mode).transcription).length) ∧
    (processTranscriptionResponse respHelloFoo LanguageMode.mixed).transcription
      = "hello world foo" ∧
    (processTranscriptionResponse respHelloFoo LanguageMode.mixed).totalWords = 3 ∧
    (processTranscriptionResponse ⟨[]⟩ LanguageMode.mixed).transcription = "" ∧
    (processTranscriptionResponse ⟨[]⟩ LanguageMode.mixed).totalWords = 0 := by
  refine ⟨?_, ?_, by decide, by decide, rfl, rfl⟩
  · rw [processResponse_ne resp mode hres]
    show String.intercalate " " ((collectedSegments resp.results).map Prod.fst) = _
    rw [collectedSegments_map_fst resp.results hall]
  · rw [processResponse_ne resp mode hres]

/-- Concrete instance of the join/word-count theorem. -/
theorem processResponse_join_wordcount_witness :
    respHelloFoo.results ≠ [] ∧
    (processTranscriptionResponse respHelloFoo LanguageMode.mixed).transcription
      = String.intercalate " "
          (respHelloFoo.results.map fun r => jsTrim (headAlternativeTranscript r)) :=
  ⟨by decide,
    (processResponse_join_wordcount respHelloFoo LanguageMode.mixed (by decide)
      (by
        intro r hr
        simp only [respHelloFoo, List.mem_cons, List.not_mem_nil, or_false] at hr
        rcases hr with rfl | rfl
        · exact ⟨⟨some "hello world", some (9 / 10)⟩, [], "hello world", rfl, rfl, by decide⟩
        · exact ⟨⟨some "foo", some (7 / 10)⟩, [], "foo", rfl, rfl, by decide⟩)).1⟩


/-! ## Claim C5 -/

lemma processResponse_confidence_eq (resp : SpeechResponse) (mode : LanguageMode)
    (hres : resp.results ≠ []) :
    (processTranscriptionResponse resp mode).confidence
      = if 0 < ((collectedSegments resp.results).map Prod.snd).length then
          ((collectedSegments resp.results).map Prod.snd).sum /
            (((collectedSegments resp.results).map Prod.snd).length : ℚ)
        else 0 := by
  rw [processResponse_ne resp mode hres]

/-- Claim C5: the returned confidence is the arithmetic mean of the
confidences of exactly the segments that produced a non-empty transcript,
a missing confidence counting as 0; the example [0.9, 0.7, missing] averages
to 8/15, and the confidence stays in [0,1] whenever every included segment
confidence does. -/
theorem processResponse_confidence_avg (resp : SpeechResponse) (mode : LanguageMode)
    (hq : ∀ q ∈ (collectedSegments resp.results).map Prod.snd, 0 ≤ q ∧ q ≤ 1) :
    (resp.results ≠ [] →
      (processTranscriptionResponse resp mode).confidence
        = (if (collectedSegments resp.results).map Prod.snd = [] then 0
           else ((collectedSegments resp.results).map Prod.snd).sum
              / (((collectedSegments resp.results).map Prod.snd).length : ℚ))) ∧
    0 ≤ (processTranscriptionResponse resp mode).confidence ∧
    (processTranscriptionResponse resp mode).confidence ≤ 1 ∧
    (processTranscriptionResponse respConfExample LanguageMode.mixed).confidence
      = 8 / 15 := by
  refine ⟨?_, ?_, ?_, ?_⟩
  case refine_4 =>
    rw [processResponse_confidence_eq respConfExample LanguageMode.mixed (by decide)]
    have hl : (collectedSegments respConfExample.results).map Prod.snd
        = [9 / 10, 7 / 10, 0] := by
      simp [collectedSegments, segmentEntry, respConfExample]
    rw [hl]
    norm_num
  · intro hres
    rw [processResponse_confidence_eq resp mode hres]
    by_cases hc : (collectedSegments resp.results).map Prod.snd = []
    · rw [if_neg (by simp [hc]), if_pos hc]
    · rw [if_pos (List.length_pos.mpr hc), if_neg hc]
  · by_cases hres : resp.results = []
    · simp [processTranscriptionResponse, hres]
    · rw [processResponse_confidence_eq resp mode hres]
      by_cases hc : 0 < ((collectedSegments resp.results).map Prod.snd).length
      · rw [if_pos hc]
        exact div_nonneg (qlist_sum_nonneg _ fun q hq' => (hq q hq').1)
          (Nat.cast_nonneg _)
      · rw [if_neg hc]
  · by_cases hres : resp.results = []
    · simp [processTranscriptionResponse, hres]
    · rw [processResponse_confidence_eq resp mode hres]
      by_cases hc : 0 < ((collectedSegments resp.results).map Prod.snd).length
      · rw [if_pos hc, div_le_one (by exact_mod_cast hc)]
        exact qlist_sum_le_length _ fun q hq' => (hq q hq').2
      · rw [if_neg hc]
        norm_num

/-- Concrete instance of the confidence-averaging theorem. -/
theorem processResponse_confidence_avg_witness :
    (∀ q ∈ (collectedSegments respConfExample.results).map Prod.snd, 0 ≤ q ∧ q ≤ 1) ∧
    (processTranscriptionResponse respConfExample LanguageMode.mixed).confidence
      = 8 / 15 := by
  have hq : ∀ q ∈ (collectedSegments respConfExample.results).map Prod.snd,
      0 ≤ q ∧ q ≤ 1 := by
    have hl : (collectedSegments respConfExample.results).map Prod.snd
        = [9 / 10, 7 / 10, 0] := by
      simp [collectedSegments, segmentEntry, respConfExample]
    rw [hl]
    intro q hmem
    fin_cases hmem <;> norm_num
  exact ⟨hq,
    (processResponse_confidence_avg respConfExample LanguageMode.mixed hq).2.2.2⟩

/-! ## Claim C9 -/

/-- A transcript with ten Sinhala-block characters and three Latin ones. -/
def sinhalaMajorityExample : String := "අආඇඈඉඊඋඌඑඒabc"

/-- Claim C9: in mixed mode the primary language of the normalized result is
always the majority-script classification of the assembled transcript:
strictly more Sinhala-block characters give "si-LK", strictly more Latin
characters give "en-US", and an exact tie (including both zero) gives
"mixed". -/
theorem processResponse_mixed_primary (resp : SpeechResponse) :
    ((processTranscriptionResponse resp LanguageMode.mixed).primaryLanguage
      = some (classifyMixedLanguage
          (processTranscriptionResponse resp LanguageMode.mixed).transcription)) ∧
    countSinhalaChars sinhalaMajorityExample = 10 ∧
    countLatinChars sinhalaMajorityExample = 3 ∧
    classifyMixedLanguage sinhalaMajorityExample = "si-LK" ∧
    classifyMixedLanguage "abc" = "en-US" ∧
    classifyMixedLanguage "අa" = "mixed" ∧
    classifyMixedLanguage "" = "mixed" := by
  refine ⟨?_, by decide, by decide, by decide, by decide, by decide, by decide⟩
  by_cases hres : resp.results = []
  · unfold processTranscriptionResponse
    rw [if_pos hres]
    decide
  · rw [processResponse_ne resp LanguageMode.mixed hres]

/-- Concrete instance of the mixed-mode classification theorem. -/
theorem processResponse_mixed_primary_witness :
    (processTranscriptionResponse respHelloFoo LanguageMode.mixed).primaryLanguage
      = some (classifyMixedLanguage
          (processTranscriptionResponse respHelloFoo LanguageMode.mixed).transcription) :=
  (processResponse_mixed_primary respHelloFoo).1

/-! ## Claim C1 -/

/-- Claim C1: when the first recognition submission fails with an error whose
message contains 'channel' or 'mono', `transcribeAudio` makes exactly one
further submission, whose configuration forces `audioChannelCount` to 1,
keeps channel separation disabled and every other field unchanged, and a
failure of that mono retry is surfaced without another submission; when the
first submission fails with any other error, no second submission is made
and the error is surfaced immediately. -/
theorem transcribeAudio_channel_fallback (gcsUri audioFormat : String)
    (mode : LanguageMode) (recognize : SpeechConfig → Except GCError SpeechResponse)
    (e : GCError)
    (hUri : jsStartsWith gcsUri "gs://" = true)
    (hFail : recognize (buildConfig audioFormat mode) = Except.error e) :
    (channelRelated e.message = true →
      (transcribeAudio gcsUri audioFormat mode recognize).2
        = [buildConfig audioFormat mode,
           { buildConfig audioFormat mode with audioChannelCount := 1 }] ∧
      ({ buildConfig audioFormat mode with
          audioChannelCount := 1 }).audioChannelCount = 1 ∧
      ({ buildConfig audioFormat mode with
          audioChannelCount := 1 }).enableSeparateRecognitionPerChannel = false ∧
      (∀ resp, recognize { buildConfig audioFormat mode with audioChannelCount := 1 }
          = Except.ok resp →
        (transcribeAudio gcsUri audioFormat mode recognize).1
          = Except.ok (processTranscriptionResponse resp mode)) ∧
      (∀ e2, recognize { buildConfig audioFormat mode with audioChannelCount := 1 }
          = Except.error e2 →
        (transcribeAudio gcsUri audioFormat mode recognize).1
          = Except.error (mapCatchError mode e2))) ∧
    (channelRelated e.message = false →
      (transcribeAudio gcsUri audioFormat mode recognize).2
        = [buildConfig audioFormat mode] ∧
      (transcribeAudio gcsUri audioFormat mode recognize).1
        = Except.error (mapCatchError mode e)) := by
  have hne : gcsUri ≠ "" := by
    intro hnil
    rw [hnil] at hUri
    exact absurd hUri (by decide)
  have hcond : ¬ (gcsUri = "" ∨ jsStartsWith gcsUri "gs://" = false) := by
    push_neg
    exact ⟨hne, by simp [hUri]⟩
  constructor
  · intro hch
    refine ⟨?_, rfl, rfl, ?_, ?_⟩
    · rcases h2 : recognize { buildConfig audioFormat mode with audioChannelCount := 1 }
        with e2 | resp
      · simp [transcribeAudio, hcond, hFail, hch, h2]
      · simp [transcribeAudio, hcond, hFail, hch, h2]
    · intro resp h2
      simp [transcribeAudio, hcond, hFail, hch, h2]
    · intro e2 h2
      simp [transcribeAudio, hcond, hFail, hch, h2]
  · intro hch
    constructor
    · simp [transcribeAudio, hcond, hFail, hch]
    · simp [transcribeAudio, hcond, hFail, hch]

/-- A provider oracle that rejects any stereo configuration with a
channel-related message and accepts the mono retry. -/
def channelFailOracle : SpeechConfig → Except GCError SpeechResponse :=
  fun c =>
    if c.audioChannelCount = 2 then
      Except.error ⟨"Must use single channel (mono) audio", some 3⟩
    else Except.ok ⟨[]⟩

/-- Concrete instance of the channel-fallback theorem. -/
theorem transcribeAudio_channel_fallback_witness :
    jsStartsWith "gs://bucket/audio/file.mp3" "gs://" = true ∧
    channelRelated "Must use single channel (mono) audio" = true ∧
    (transcribeAudio "gs://bucket/audio/file.mp3" "mp3" LanguageMode.mixed
        channelFailOracle).2
      = [buildConfig "mp3" LanguageMode.mixed,
         { buildConfig "mp3" LanguageMode.mixed with audioChannelCount := 1 }] :=
  ⟨by decide, by decide,
    ((transcribeAudio_channel_fallback "gs://bucket/audio/file.mp3" "mp3"
        LanguageMode.mixed channelFailOracle
        ⟨"Must use single channel (mono) audio", some 3⟩ (by decide) rfl).1
      (by decide)).1⟩

/-! ## Claim C10 -/

/-- Claim C10: a transcribe request that omits `languageMode` behaves exactly
as one with `languageMode` set to 'mixed': the recognition request is built
with primary language "si-LK" plus alternative languages ["en-US"], and the
route response is identical to the explicit-mixed response. -/
theorem transcribeRoute_default_mode (gcsUri audioFormat : String)
    (gcpProjectId gcsClientEmail gcsPrivateKey : Bool)
    (recognize : SpeechConfig → Except GCError SpeechResponse) :
    transcribeRoutePOST ⟨gcsUri, audioFormat, none⟩
        gcpProjectId gcsClientEmail gcsPrivateKey recognize
      = transcribeRoutePOST ⟨gcsUri, audioFormat, some LanguageMode.mixed⟩
          gcpProjectId gcsClientEmail gcsPrivateKey recognize ∧
    (buildConfig audioFormat LanguageMode.mixed).languageCode = "si-LK" ∧
    (buildConfig audioFormat LanguageMode.mixed).alternativeLanguageCodes = ["en-US"] :=
  ⟨rfl, rfl, rfl⟩

/-- Concrete instance of the default-language-mode theorem. -/
theorem transcribeRoute_default_mode_witness :
    transcribeRoutePOST ⟨"gs://bucket/a.mp3", "mp3", none⟩ true true true
        (fun _ => Except.ok ⟨[]⟩)
      = transcribeRoutePOST ⟨"gs://bucket/a.mp3", "mp3", some LanguageMode.mixed⟩
          true true true (fun _ => Except.ok ⟨[]⟩) :=
  (transcribeRoute_default_mode "gs://bucket/a.mp3" "mp3" true true true
    (fun _ => Except.ok ⟨[]⟩)).1
